import Mathlib

/-!
# Verification of the `AiSdkToChunkAdapter` stream translator and `ApiClientFactory`

A shallow embedding of `src/renderer/src/aiCore/AiSdkToChunkAdapter.ts` and
`packages/aiCore/src/clients/ApiClientFactory.ts` /
`packages/aiCore/src/clients/types.ts` (registry), together with theorems
settling the behavioural claims about them.

Modelling conventions:
* JavaScript strings are `String`; the JS idiom `s || d` on strings is
  `jsOr s d` (empty string and `undefined` are falsy; `undefined` string
  fields are modelled as `""`).
* Usage objects may be absent (`Option Usage`) and their numeric fields may
  be absent (`Option Nat`); `x || 0` is `jsOrZero`.
* Reading a field of an absent usage object throws a `TypeError`; a step of
  the translator therefore returns the chunks it emitted before returning or
  throwing, together with `Except JsError FinalState`.
* `Date.now()` is a parameter `now : Nat` threaded through the translator.
* The reader operations performed by `readFullStream` (`read`,
  `releaseLock`) are recorded in a trace, so that the resource discipline of
  the `try`/`finally` block is visible in the model.
-/

/-- Models the JS string idiom `s || d`: the empty string is falsy. -/
def jsOr (s d : String) : String := if s = "" then d else s

/-- Models `x || 0` on a possibly-absent numeric field. -/
def jsOrZero (x : Option Nat) : Nat := x.getD 0

/-- The numeric value of a decimal digit character, if it is one. -/
def charDigit? (c : Char) : Option Nat :=
  if 48 ≤ c.toNat ∧ c.toNat ≤ 57 then some (c.toNat - 48) else none

/-- Reads a nonempty run of decimal digits as a number. -/
def digitsToNat? : List Char → Nat → Option Nat
  | [], acc => some acc
  | c :: rest, acc =>
      match charDigit? c with
      | some d => digitsToNat? rest (acc * 10 + d)
      | none => none

/-- Models `Number(s)` restricted to the shapes the adapter meets: the empty
string converts to `0`, a decimal numeral to its value, anything else to
`NaN` (represented as `none`). -/
def jsNumber (s : String) : Option Nat :=
  if s = "" then some 0 else digitsToNat? s.data 0

/-- The usage object carried by `step-finish` / `finish` records. Every
numeric field may be absent at runtime. -/
structure Usage where
  completionTokens : Option Nat
  promptTokens : Option Nat
  totalTokens : Option Nat
deriving DecidableEq, Repr

/-- The normalized usage snapshot placed in `BLOCK_COMPLETE` /
`LLM_RESPONSE_COMPLETE` chunks. -/
structure UsageOut where
  completion_tokens : Nat
  prompt_tokens : Nat
  total_tokens : Nat
deriving DecidableEq, Repr

/-- The `metrics` object of completion chunks. -/
structure Metrics where
  completion_tokens : Nat
  time_completion_millsec : Nat
deriving DecidableEq, Repr

/-- Upstream records: the `TextStreamPart` union consumed by
`convertAndEmitChunk`, one constructor per `case` of the `switch` (plus the
`default` catch-all as `unrecognized`). -/
inductive TextStreamPart
  | textDelta (textDelta : String)
  | reasoning (textDelta : String)
  | reasoningSignature (signature : String)
  | redactedReasoning (data : String)
  | toolCallStreamingStart (toolCallId toolName : String)
  | toolCallDelta (toolCallId toolName argsTextDelta : String)
  | toolCall (toolCallId toolName args : String)
  | toolResult (toolCallId toolName args result : String)
  | stepFinish (usage : Option Usage)
  | finish (usage : Option Usage)
  | source (id title url : String)
  | file (base64 : String)
  | errorPart (message : String)
  | unrecognized (ty : String)
deriving DecidableEq, Repr

/-- Normalized chunks delivered to the `onChunk` sink, one constructor per
`ChunkType` the adapter emits, carrying the fields the adapter fills in. -/
inductive Chunk
  | textDelta (text : String)
  | thinkingDelta (text : String)
  | thinkingComplete (text : String)
  | mcpToolCreated (id name args : String)
  | mcpToolInProgress (id toolName status response : String)
  | mcpToolComplete (id toolName args status response : String)
  | blockComplete (text reasoning_content : String) (usage : UsageOut)
      (metrics : Option Metrics)
  | textComplete (text : String)
  | llmResponseComplete (text reasoning_content : String) (usage : UsageOut)
      (metrics : Option Metrics)
  | knowledgeSearchComplete (id : Nat) (content sourceUrl : String)
  | imageComplete (base64 : String)
  | error (message : String)
deriving DecidableEq, Repr

/-- Runtime exceptions of the adapter: reading a property of `undefined`. -/
inductive JsError
  | typeError
deriving DecidableEq, Repr

/-- The per-stream accumulator `final` of `readFullStream`. -/
structure FinalState where
  text : String
  reasoning_content : String
deriving DecidableEq, Repr

/-- The knowledge id of a `source` chunk:
`Number(chunk.source.id) || Date.now()`. -/
def knowledgeId (now : Nat) (id : String) : Nat :=
  match jsNumber id with
  | some n => if n = 0 then now else n
  | none => now

/-- The usage snapshot
`{completion_tokens: u.completionTokens || 0, prompt_tokens: u.promptTokens || 0, total_tokens: u.totalTokens || 0}`. -/
def mkUsageOut (u : Usage) : UsageOut :=
  ⟨jsOrZero u.completionTokens, jsOrZero u.promptTokens, jsOrZero u.totalTokens⟩

/-- One `switch` dispatch of `convertAndEmitChunk`: given the current
accumulator, the chunks passed to `onChunk` (in order) and either the updated
accumulator or the `TypeError` thrown when a `step-finish` / `finish` record
has no usage object (`chunk.usage.completionTokens` with `chunk.usage`
undefined). For `finish` the `TEXT_COMPLETE` chunk is emitted before the
usage object is read, so it survives the throw. -/
def convertAndEmitChunk (now : Nat) (chunk : TextStreamPart) (final : FinalState) :
    List Chunk × Except JsError FinalState :=
  match chunk with
  | .textDelta s =>
      let final' : FinalState := { final with text := final.text ++ jsOr s "" }
      if final'.reasoning_content = "" then
        ([Chunk.textDelta (jsOr s "")], .ok final')
      else
        ([Chunk.textDelta (jsOr s ""),
          Chunk.thinkingComplete (jsOr final'.reasoning_content "")],
         .ok { final' with reasoning_content := "" })
  | .reasoning s =>
      ([Chunk.thinkingDelta (jsOr s "")],
       .ok { final with reasoning_content := final.reasoning_content ++ jsOr s "" })
  | .reasoningSignature sig =>
      ([Chunk.thinkingComplete (jsOr sig "")], .ok final)
  | .redactedReasoning d =>
      ([Chunk.thinkingDelta (jsOr d "")], .ok final)
  | .toolCallStreamingStart id name =>
      ([Chunk.mcpToolCreated id name "\x7b\x7d"], .ok final)
  | .toolCallDelta id name argsTextDelta =>
      ([Chunk.mcpToolInProgress id name "invoking" argsTextDelta], .ok final)
  | .toolCall id name args =>
      ([Chunk.mcpToolCreated id name args], .ok final)
  | .toolResult id name args result =>
      ([Chunk.mcpToolComplete id name (jsOr args "\x7b\x7d") "done" result], .ok final)
  | .stepFinish usage =>
      match usage with
      | none => ([], .error .typeError)
      | some u =>
          ([Chunk.blockComplete (jsOr final.text "") (jsOr final.reasoning_content "")
              (mkUsageOut u) (some ⟨jsOrZero u.completionTokens, 0⟩)],
           .ok final)
  | .finish usage =>
      match usage with
      | none => ([Chunk.textComplete (jsOr final.text "")], .error .typeError)
      | some u =>
          ([Chunk.textComplete (jsOr final.text ""),
            Chunk.llmResponseComplete (jsOr final.text "") (jsOr final.reasoning_content "")
              (mkUsageOut u) (some ⟨jsOrZero u.completionTokens, 0⟩)],
           .ok final)
  | .source id title url =>
      ([Chunk.knowledgeSearchComplete (knowledgeId now id) (jsOr title "") (jsOr url "")],
       .ok final)
  | .file base64 =>
      ([Chunk.imageComplete base64], .ok final)
  | .errorPart message =>
      ([Chunk.error (jsOr message "Unknown error")], .ok final)
  | .unrecognized _ =>
      ([], .ok final)

/-- Operations performed on the stream reader. -/
inductive ReaderOp
  | read
  | releaseLock
deriving DecidableEq, Repr

/-- Result of pumping the stream: emitted chunks, the reader-operation
trace, and the final accumulator or the exception that escaped. -/
structure RunResult where
  chunks : List Chunk
  ops : List ReaderOp
  result : Except JsError FinalState
deriving Repr

/-- The `while (true)` loop body of `readFullStream`: one `reader.read()`
per iteration, conversion of each record, stopping at `done` or when a
conversion throws. -/
def readLoop (now : Nat) : List TextStreamPart → FinalState → RunResult
  | [], final => ⟨[], [ReaderOp.read], .ok final⟩
  | c :: rest, final =>
      let step := convertAndEmitChunk now c final
      match step.2 with
      | .error e => ⟨step.1, [ReaderOp.read], .error e⟩
      | .ok final' =>
          let r := readLoop now rest final'
          ⟨step.1 ++ r.chunks, ReaderOp.read :: r.ops, r.result⟩

/-- `readFullStream`: runs the loop from the fresh accumulator
`{text: '', reasoning_content: ''}` and, per the `finally` block, performs
`releaseLock` exactly once after the loop, on both the normal and the
throwing path, before the exception (if any) propagates. -/
def readFullStream (now : Nat) (events : List TextStreamPart) : RunResult :=
  let r := readLoop now events ⟨"", ""⟩
  ⟨r.chunks, r.ops ++ [ReaderOp.releaseLock], r.result⟩

/-- The stream-result object handed to `processStream`: an optional
`fullStream` and the backend's own final `text` promise. -/
structure AiSdkResult where
  fullStream : Option (List TextStreamPart)
  text : String
deriving DecidableEq, Repr

/-- Result of `processStream`: chunks emitted, reader trace, and the
resolved string or escaped exception. -/
structure ProcessResult where
  chunks : List Chunk
  ops : List ReaderOp
  result : Except JsError String
deriving Repr

/-- `processStream`: reads `fullStream` to exhaustion when present, then
resolves to `aiSdkResult.text` (not to the accumulated buffer). -/
def processStream (now : Nat) (aiSdkResult : AiSdkResult) : ProcessResult :=
  match aiSdkResult.fullStream with
  | some events =>
      let r := readFullStream now events
      ⟨r.chunks, r.ops, r.result.map fun _ => aiSdkResult.text⟩
  | none => ⟨[], [], .ok aiSdkResult.text⟩

example : (readFullStream 0 [.textDelta "Hi", .textDelta " there",
    .finish (some ⟨some 3, none, none⟩)]).chunks
    = [Chunk.textDelta "Hi", Chunk.textDelta " there", Chunk.textComplete "Hi there",
       Chunk.llmResponseComplete "Hi there" "" ⟨3, 0, 0⟩ (some ⟨3, 0⟩)] := by
  decide

/-! ## Observation helpers on records and chunks -/

/-- The text fragments of the `text-delta` records of a sequence, in order. -/
def textFragments : List TextStreamPart → List String
  | [] => []
  | .textDelta s :: rest => s :: textFragments rest
  | _ :: rest => textFragments rest

/-- Concatenation, in order, of the `text-delta` fragments of a sequence. -/
def answerConcat : List TextStreamPart → String
  | [] => ""
  | .textDelta s :: rest => s ++ answerConcat rest
  | _ :: rest => answerConcat rest

/-- The payloads of the `TEXT_DELTA` chunks of an emission trace, in order. -/
def textDeltaChunks : List Chunk → List String
  | [] => []
  | .textDelta s :: rest => s :: textDeltaChunks rest
  | _ :: rest => textDeltaChunks rest

/-- Terminal records: `finish` and `error`. -/
def isTerminalRecord : TextStreamPart → Bool
  | .finish _ => true
  | .errorPart _ => true
  | _ => false

/-- A record whose translation does not consult `Date.now()`: every record
except a `source` record whose `id` fails to convert to a nonzero number. -/
def timeIndependent : TextStreamPart → Bool
  | .source id _ _ =>
      match jsNumber id with
      | some n => n ≠ 0
      | none => false
  | _ => true

/-! ## The provider registry and `ApiClientFactory` -/

/-- A registry entry: `id`, display `name`, and the name of the creator
function resolved in the dynamically imported module. The `import()` thunk
itself is summarised by `creatorFunctionName` (which module to load and which
export to call are both determined by the entry). -/
structure ProviderConfig where
  id : String
  name : String
  creatorFunctionName : String
deriving DecidableEq, Repr

/-- The 24 providers inserted by `AiProviderRegistry.initializeProviders`,
in insertion order (all ids distinct, so a list models the `Map`). -/
def defaultProviders : List ProviderConfig :=
  [⟨"openai", "OpenAI", "createOpenAI"⟩,
   ⟨"openai-compatible", "OpenAI Compatible", "createOpenAICompatible"⟩,
   ⟨"anthropic", "Anthropic", "createAnthropic"⟩,
   ⟨"google", "Google Generative AI", "createGoogleGenerativeAI"⟩,
   ⟨"google-vertex", "Google Vertex AI", "createVertex"⟩,
   ⟨"mistral", "Mistral AI", "createMistral"⟩,
   ⟨"xai", "xAI (Grok)", "createXai"⟩,
   ⟨"azure", "Azure OpenAI", "createAzure"⟩,
   ⟨"bedrock", "Amazon Bedrock", "createAmazonBedrock"⟩,
   ⟨"cohere", "Cohere", "createCohere"⟩,
   ⟨"groq", "Groq", "createGroq"⟩,
   ⟨"together", "Together.ai", "createTogetherAI"⟩,
   ⟨"fireworks", "Fireworks", "createFireworks"⟩,
   ⟨"deepseek", "DeepSeek", "createDeepSeek"⟩,
   ⟨"cerebras", "Cerebras", "createCerebras"⟩,
   ⟨"deepinfra", "DeepInfra", "createDeepInfra"⟩,
   ⟨"replicate", "Replicate", "createReplicate"⟩,
   ⟨"perplexity", "Perplexity", "createPerplexity"⟩,
   ⟨"fal", "Fal AI", "createFal"⟩,
   ⟨"vercel", "Vercel", "createVercel"⟩,
   ⟨"ollama", "Ollama", "createOllama"⟩,
   ⟨"qwen", "Qwen", "createQwen"⟩,
   ⟨"zhipu", "Zhipu AI", "createZhipu"⟩,
   ⟨"anthropic-vertex", "Anthropic Vertex AI", "createAnthropicVertex"⟩,
   ⟨"openrouter", "OpenRouter", "createOpenRouter"⟩]

/-- `AiProviderRegistry.isSupported`: `this.registry.has(id)`. -/
def isSupported (reg : List ProviderConfig) (id : String) : Bool :=
  reg.any fun c => c.id = id

/-- `AiProviderRegistry.getProvider`: `this.registry.get(id)`. -/
def getProvider (reg : List ProviderConfig) (id : String) : Option ProviderConfig :=
  reg.find? fun c => c.id = id

/-- Outcome of the resolution phase of `ApiClientFactory.createClient`
(lines 50–59): either the provider configuration whose module will be
imported, or the `ClientFactoryError` "Provider ... is not registered". The
subsequent dynamic import and creator-function call act on external npm
modules and are outside the embedding. -/
inductive CreateClientResult
  | resolved (config : ProviderConfig)
  | notRegistered (effectiveId : String)
deriving DecidableEq, Repr

/-- `ApiClientFactory.createClient`, resolution phase: an unregistered
`providerId` is replaced by `'openai-compatible'` before the registry
lookup. -/
def createClient (reg : List ProviderConfig) (providerId : String) : CreateClientResult :=
  let effectiveProviderId := if isSupported reg providerId then providerId
    else "openai-compatible"
  match getProvider reg effectiveProviderId with
  | some providerConfig => .resolved providerConfig
  | none => .notRegistered effectiveProviderId

/-- The record returned by `ApiClientFactory.getClientInfo`. -/
structure ClientInfo where
  id : String
  name : String
  isSupported : Bool
  effectiveProvider : String
deriving DecidableEq, Repr

/-- `ApiClientFactory.getClientInfo` (lines 109–124). -/
def getClientInfo (reg : List ProviderConfig) (providerId : String) : ClientInfo :=
  let effectiveProviderId := if isSupported reg providerId then providerId
    else "openai-compatible"
  let provider := getProvider reg effectiveProviderId
  { id := providerId
    name := jsOr ((provider.map fun c => c.name).getD "") providerId
    isSupported := isSupported reg providerId
    effectiveProvider := effectiveProviderId }

example : createClient defaultProviders "foo"
    = .resolved ⟨"openai-compatible", "OpenAI Compatible", "createOpenAICompatible"⟩ := by
  decide

/-! ## Basic lemmas -/

theorem jsOr_empty (s : String) : jsOr s "" = s := by
  unfold jsOr
  split
  · exact Eq.symm (by assumption)
  · rfl

theorem string_append_eq_empty_iff (a b : String) : a ++ b = "" ↔ a = "" ∧ b = "" := by
  constructor
  · intro hc
    cases a with
    | mk la =>
      cases b with
      | mk lb =>
        have hdata : la ++ lb = [] := congrArg String.data hc
        have hnil := List.append_eq_nil.mp hdata
        exact ⟨congrArg String.mk hnil.1, congrArg String.mk hnil.2⟩
  · rintro ⟨rfl, rfl⟩
    rfl

theorem textDeltaChunks_append (a b : List Chunk) :
    textDeltaChunks (a ++ b) = textDeltaChunks a ++ textDeltaChunks b := by
  induction a with
  | nil => rfl
  | cons c rest ih => cases c <;> simp [textDeltaChunks, ih]

theorem answerConcat_cons (c : TextStreamPart) (rest : List TextStreamPart) :
    answerConcat (c :: rest) = answerConcat [c] ++ answerConcat rest := by
  cases c <;> simp [answerConcat, String.append_assoc, String.append_empty,
    String.empty_append]

/-- Unfolding `readLoop` on a record whose conversion succeeds. -/
theorem readLoop_cons_ok (now : Nat) (c : TextStreamPart) (rest : List TextStreamPart)
    (st f' : FinalState) (h : (convertAndEmitChunk now c st).2 = .ok f') :
    readLoop now (c :: rest) st =
      ⟨(convertAndEmitChunk now c st).1 ++ (readLoop now rest f').chunks,
       ReaderOp.read :: (readLoop now rest f').ops,
       (readLoop now rest f').result⟩ := by
  simp [readLoop, h]

/-- Unfolding `readLoop` on a record whose conversion throws. -/
theorem readLoop_cons_error (now : Nat) (c : TextStreamPart) (rest : List TextStreamPart)
    (st : FinalState) (e : JsError) (h : (convertAndEmitChunk now c st).2 = .error e) :
    readLoop now (c :: rest) st = ⟨(convertAndEmitChunk now c st).1, [ReaderOp.read], .error e⟩ := by
  simp [readLoop, h]

/-- A successful conversion step extends the text buffer by exactly the
record's `text-delta` fragment (and by nothing otherwise). -/
theorem convertAndEmitChunk_ok_text (now : Nat) (c : TextStreamPart) (st st' : FinalState)
    (h : (convertAndEmitChunk now c st).2 = .ok st') :
    st'.text = st.text ++ answerConcat [c] := by
  cases c
  case textDelta s =>
    simp only [convertAndEmitChunk] at h
    split at h <;>
      · simp only [Except.ok.injEq] at h
        subst h
        simp [answerConcat, jsOr_empty, String.append_empty]
  case stepFinish usage =>
    cases usage with
    | none => simp [convertAndEmitChunk] at h
    | some u =>
      simp only [convertAndEmitChunk, Except.ok.injEq] at h
      subst h
      simp [answerConcat, String.append_empty]
  case finish usage =>
    cases usage with
    | none => simp [convertAndEmitChunk] at h
    | some u =>
      simp only [convertAndEmitChunk, Except.ok.injEq] at h
      subst h
      simp [answerConcat, String.append_empty]
  all_goals
    simp only [convertAndEmitChunk, Except.ok.injEq] at h
  all_goals
    subst h
  all_goals
    simp [answerConcat, String.append_empty]

/-- The `TEXT_DELTA` payloads a single conversion emits are exactly the
record's `text-delta` fragments (on the throwing path too). -/
theorem convertAndEmitChunk_textDeltaChunks (now : Nat) (c : TextStreamPart) (st : FinalState) :
    textDeltaChunks (convertAndEmitChunk now c st).1 = textFragments [c] := by
  cases c
  case textDelta s =>
    simp only [convertAndEmitChunk]
    split <;> simp [textDeltaChunks, textFragments, jsOr_empty]
  case stepFinish usage => cases usage <;> rfl
  case finish usage => cases usage <;> rfl
  all_goals rfl

/-- After a run of the loop that ends without a throw, the accumulator's
text buffer has grown by the concatenation of the `text-delta` fragments. -/
theorem readLoop_ok_text (now : Nat) (evs : List TextStreamPart) :
    ∀ st st' : FinalState, (readLoop now evs st).result = .ok st' →
      st'.text = st.text ++ answerConcat evs := by
  induction evs with
  | nil =>
    intro st st' h
    simp only [readLoop, Except.ok.injEq] at h
    subst h
    simp [answerConcat, String.append_empty]
  | cons c rest ih =>
    intro st st' h
    cases hc : (convertAndEmitChunk now c st).2 with
    | error e =>
      rw [readLoop_cons_error now c rest st e hc] at h
      simp at h
    | ok f' =>
      rw [readLoop_cons_ok now c rest st f' hc] at h
      have h1 := convertAndEmitChunk_ok_text now c st f' hc
      have h2 := ih f' st' h
      rw [h2, h1, String.append_assoc]
      congr 1
      exact (answerConcat_cons c rest).symm

/-- The `TEXT_DELTA` payloads of a completed run are exactly the `text-delta`
fragments of the sequence, in order. -/
theorem readLoop_ok_textDeltaChunks (now : Nat) (evs : List TextStreamPart) :
    ∀ st st' : FinalState, (readLoop now evs st).result = .ok st' →
      textDeltaChunks (readLoop now evs st).chunks = textFragments evs := by
  induction evs with
  | nil => intro st st' _; rfl
  | cons c rest ih =>
    intro st st' h
    cases hc : (convertAndEmitChunk now c st).2 with
    | error e =>
      rw [readLoop_cons_error now c rest st e hc] at h
      simp at h
    | ok f' =>
      rw [readLoop_cons_ok now c rest st f' hc] at h ⊢
      simp only [textDeltaChunks_append]
      rw [convertAndEmitChunk_textDeltaChunks now c st, ih f' st' h]
      cases c <;> rfl

/-- A record that is not a time-dependent `source` record translates the
same way whatever the clock says. -/
theorem convertAndEmitChunk_timeIndependent (now₁ now₂ : Nat) (c : TextStreamPart)
    (st : FinalState) (h : timeIndependent c = true) :
    convertAndEmitChunk now₁ c st = convertAndEmitChunk now₂ c st := by
  cases c
  case source id title url =>
    simp only [convertAndEmitChunk]
    have hk : knowledgeId now₁ id = knowledgeId now₂ id := by
      simp only [timeIndependent] at h
      unfold knowledgeId
      cases hj : jsNumber id with
      | none => rw [hj] at h; simp at h
      | some n =>
        rw [hj] at h
        simp only [decide_eq_true_eq] at h
        simp [h]
    rw [hk]
  all_goals rfl

/-- Runs over a sequence of time-independent records coincide whatever the
clock says. -/
theorem readLoop_timeIndependent (now₁ now₂ : Nat) (evs : List TextStreamPart)
    (h : ∀ c ∈ evs, timeIndependent c = true) :
    ∀ st : FinalState, readLoop now₁ evs st = readLoop now₂ evs st := by
  induction evs with
  | nil => intro st; rfl
  | cons c rest ih =>
    intro st
    have hc := convertAndEmitChunk_timeIndependent now₁ now₂ c st (h c (by simp))
    have hrest : ∀ c ∈ rest, timeIndependent c = true := fun x hx => h x (by simp [hx])
    simp only [readLoop, hc]
    cases (convertAndEmitChunk now₂ c st).2 with
    | error e => rfl
    | ok f' => simp only [ih hrest]

/-- A run over a longer stream continues from where the successful run over
the prefix left off: no record is ever drained without translation. -/
theorem readLoop_append_ok (now : Nat) (xs : List TextStreamPart) :
    ∀ (ys : List TextStreamPart) (st st' : FinalState),
      (readLoop now xs st).result = .ok st' →
      (readLoop now (xs ++ ys) st).chunks
          = (readLoop now xs st).chunks ++ (readLoop now ys st').chunks ∧
      (readLoop now (xs ++ ys) st).result = (readLoop now ys st').result := by
  induction xs with
  | nil =>
    intro ys st st' h
    simp only [readLoop, Except.ok.injEq] at h
    subst h
    simp [readLoop]
  | cons c rest ih =>
    intro ys st st' h
    cases hc : (convertAndEmitChunk now c st).2 with
    | error e =>
      rw [readLoop_cons_error now c rest st e hc] at h
      simp at h
    | ok f' =>
      rw [readLoop_cons_ok now c rest st f' hc] at h
      have hih := ih ys f' st' h
      rw [List.cons_append, readLoop_cons_ok now c (rest ++ ys) st f' hc,
        readLoop_cons_ok now c rest st f' hc]
      refine ⟨?_, hih.2⟩
      simp [hih.1]

/-- The loop itself performs only `read` operations. -/
theorem readLoop_ops_read (now : Nat) (evs : List TextStreamPart) :
    ∀ st : FinalState, ∀ op ∈ (readLoop now evs st).ops, op = ReaderOp.read := by
  induction evs with
  | nil =>
    intro st op hop
    simp only [readLoop, List.mem_singleton] at hop
    exact hop
  | cons c rest ih =>
    intro st op hop
    cases hc : (convertAndEmitChunk now c st).2 with
    | error e =>
      rw [readLoop_cons_error now c rest st e hc] at hop
      simp only [List.mem_singleton] at hop
      exact hop
    | ok f' =>
      rw [readLoop_cons_ok now c rest st f' hc] at hop
      simp only [List.mem_cons] at hop
      cases hop with
      | inl h => exact h
      | inr h => exact ih f' op h

/-! ## Claims -/

/-- The property asserted by claim C1: once the first terminal record
(`finish` or `error`) has been processed, later records contribute no
chunks and the accumulator outcome is unchanged. -/
def c1Claim : Prop :=
  ∀ (now : Nat) (pre : List TextStreamPart) (e : TextStreamPart)
    (post : List TextStreamPart),
    (∀ p ∈ pre, isTerminalRecord p = false) →
    isTerminalRecord e = true →
    (readFullStream now (pre ++ e :: post)).chunks
        = (readFullStream now (pre ++ [e])).chunks ∧
    (readFullStream now (pre ++ e :: post)).result
        = (readFullStream now (pre ++ [e])).result

/-- Claim C1 is false on the code: the adapter has no DONE state, so a
`text-delta` record arriving after a `finish` record is still translated and
emitted. -/
theorem c1_counterexample : ¬ c1Claim := by
  intro h
  have hc := (h 0 [] (.finish (some ⟨some 3, some 1, some 4⟩)) [.textDelta "x"]
    (by intro p hp; simp at hp) rfl).1
  revert hc
  decide

/-- Claim C1, amended: the adapter never enters a terminal state.  A
`finish` record (with a usage object) leaves the accumulator unchanged and
does not stop translation: a `text-delta` record after it still emits its
`TEXT_DELTA` chunk and still mutates the text buffer. -/
theorem c1_amended (now : Nat) (u : Usage) (s : String) :
    (convertAndEmitChunk now (.finish (some u)) ⟨"", ""⟩).2 = .ok ⟨"", ""⟩ ∧
    (readFullStream now [.finish (some u), .textDelta s]).chunks
        = (readFullStream now [.finish (some u)]).chunks ++ [Chunk.textDelta s] ∧
    (readFullStream now [.finish (some u), .textDelta s]).result = .ok ⟨s, ""⟩ := by
  refine ⟨rfl, ?_, ?_⟩ <;>
    simp [readFullStream, readLoop, convertAndEmitChunk, jsOr_empty,
      String.empty_append]

/-- Claim C2 names a real code bug: on a `step-finish` or `finish` record
whose usage object is absent, `chunk.usage.completionTokens` throws a
`TypeError` instead of defaulting the derived fields to 0 (for `finish`, the
`TEXT_COMPLETE` chunk has already been emitted when the throw happens).  When
the usage object is present with absent numeric fields, every derived field
does default to 0 without an exception. -/
theorem c2_missing_usage_throws :
    convertAndEmitChunk 0 (.stepFinish none) ⟨"", ""⟩ = ([], .error .typeError) ∧
    convertAndEmitChunk 0 (.finish none) ⟨"", ""⟩
        = ([Chunk.textComplete ""], .error .typeError) ∧
    convertAndEmitChunk 0 (.stepFinish (some ⟨none, none, none⟩)) ⟨"", ""⟩
        = ([Chunk.blockComplete "" "" ⟨0, 0, 0⟩ (some ⟨0, 0⟩)], .ok ⟨"", ""⟩) ∧
    convertAndEmitChunk 0 (.finish (some ⟨none, none, none⟩)) ⟨"", ""⟩
        = ([Chunk.textComplete "",
            Chunk.llmResponseComplete "" "" ⟨0, 0, 0⟩ (some ⟨0, 0⟩)],
           .ok ⟨"", ""⟩) :=
  ⟨rfl, rfl, rfl, rfl⟩

/-- The property asserted by claim C3: `processStream` resolves to the
concatenation of the `text-delta` fragments of the stream it processed. -/
def c3Claim : Prop :=
  ∀ (now : Nat) (aiSdkResult : AiSdkResult) (events : List TextStreamPart)
    (s : String),
    aiSdkResult.fullStream = some events →
    (processStream now aiSdkResult).result = .ok s →
    s = answerConcat events

/-- Claim C3 is false on the code: `processStream` returns
`await aiSdkResult.text`, an independent field of the stream-result object,
not the adapter's accumulated buffer; a result object whose `text` disagrees
with its stream resolves to that `text`. -/
theorem c3_counterexample : ¬ c3Claim := by
  intro h
  have hc := h 0 ⟨some [.textDelta "Hi"], "Bye"⟩ [.textDelta "Hi"] "Bye" rfl rfl
  exact absurd hc (by decide)

/-- Claim C3, amended: `processStream` resolves, after the stream is
exhausted (all its chunks have been emitted), to the stream-result object's
own `text` field; the adapter's internal text buffer — not the resolved
value — equals the concatenation in order of the `text-delta` fragments. -/
theorem c3_amended (now : Nat) (aiSdkResult : AiSdkResult)
    (events : List TextStreamPart) (st : FinalState)
    (hfs : aiSdkResult.fullStream = some events)
    (hok : (readFullStream now events).result = .ok st) :
    (processStream now aiSdkResult).result = .ok aiSdkResult.text ∧
    st.text = answerConcat events ∧
    (processStream now aiSdkResult).chunks = (readFullStream now events).chunks := by
  refine ⟨?_, ?_, ?_⟩
  · simp [processStream, hfs, hok, Except.map]
  · have hok' : (readLoop now events ⟨"", ""⟩).result = .ok st := hok
    have := readLoop_ok_text now events ⟨"", ""⟩ st hok'
    rwa [String.empty_append] at this
  · simp [processStream, hfs]

/-- Witness for `c3_amended`: Scenario A. -/
theorem c3_amended_witness :
    (processStream 0 ⟨some [.textDelta "Hi", .textDelta " there",
        .finish (some ⟨some 3, none, none⟩)], "Hi there"⟩).result = .ok "Hi there" ∧
    (⟨"Hi there", ""⟩ : FinalState).text
        = answerConcat [.textDelta "Hi", .textDelta " there",
            .finish (some ⟨some 3, none, none⟩)] ∧
    (processStream 0 ⟨some [.textDelta "Hi", .textDelta " there",
        .finish (some ⟨some 3, none, none⟩)], "Hi there"⟩).chunks
      = (readFullStream 0 [.textDelta "Hi", .textDelta " there",
          .finish (some ⟨some 3, none, none⟩)]).chunks :=
  c3_amended 0 ⟨some [.textDelta "Hi", .textDelta " there",
      .finish (some ⟨some 3, none, none⟩)], "Hi there"⟩
    [.textDelta "Hi", .textDelta " there", .finish (some ⟨some 3, none, none⟩)]
    ⟨"Hi there", ""⟩ rfl rfl

/-- The property asserted by claim C4: the emitted chunk sequence depends on
the upstream sequence alone, never on the clock. -/
def c4Claim : Prop :=
  ∀ (now₁ now₂ : Nat) (events : List TextStreamPart),
    (readFullStream now₁ events).chunks = (readFullStream now₂ events).chunks

/-- Claim C4 is false on the code: a `source` record whose id does not
convert to a nonzero number falls back to `Date.now()`
(`Number(chunk.source.id) || Date.now()`), so two runs at different times
emit different `KNOWLEDGE_SEARCH_COMPLETE` ids. -/
theorem c4_counterexample : ¬ c4Claim := by
  intro h
  have hc := h 1 2 [.source "x" "t" "u"]
  revert hc
  decide

/-- Claim C4, amended: translation is a deterministic function of the
upstream sequence alone for every sequence containing no `source` record
whose id fails to convert to a nonzero number; only that fallback consults
the clock. -/
theorem c4_amended (now₁ now₂ : Nat) (events : List TextStreamPart)
    (h : ∀ c ∈ events, timeIndependent c = true) :
    readFullStream now₁ events = readFullStream now₂ events := by
  unfold readFullStream
  rw [readLoop_timeIndependent now₁ now₂ events h ⟨"", ""⟩]

/-- Witness for `c4_amended`: two runs at different clocks over a
time-independent sequence coincide. -/
theorem c4_amended_witness :
    (∀ c ∈ [TextStreamPart.textDelta "a", .source "5" "t" "u"],
        timeIndependent c = true) ∧
    readFullStream 1 [TextStreamPart.textDelta "a", .source "5" "t" "u"]
        = readFullStream 2 [TextStreamPart.textDelta "a", .source "5" "t" "u"] :=
  ⟨by decide, c4_amended 1 2 _ (by decide)⟩

/-- The property asserted by claim C5: for every upstream sequence, the
emitted `TEXT_DELTA` chunks are in one-to-one, order-preserving
correspondence with the `text-delta` records of the sequence, each carrying
its record's fragment verbatim. -/
def c5Claim : Prop :=
  ∀ (now : Nat) (events : List TextStreamPart),
    textDeltaChunks (readFullStream now events).chunks = textFragments events

/-- Claim C5 is false on the code: a `step-finish` record without a usage
object throws a `TypeError` that aborts the loop, so a `text-delta` record
after it is never read and its `TEXT_DELTA` chunk is never emitted. -/
theorem c5_counterexample : ¬ c5Claim := by
  intro h
  have hc := h 0 [.stepFinish none, .textDelta "x"]
  revert hc
  decide

/-- Claim C5, amended: over every run that completes without an internal
exception (i.e. is not aborted by the usage `TypeError` of claim C2), the
emitted `TEXT_DELTA` chunks are in one-to-one, order-preserving
correspondence with the `text-delta` records, each carrying its record's
fragment verbatim. -/
theorem c5_textDelta_correspondence (now : Nat) (events : List TextStreamPart)
    (st : FinalState) (h : (readFullStream now events).result = .ok st) :
    textDeltaChunks (readFullStream now events).chunks = textFragments events := by
  have h' : (readLoop now events ⟨"", ""⟩).result = .ok st := h
  exact readLoop_ok_textDeltaChunks now events ⟨"", ""⟩ st h'

/-- Witness for `c5_textDelta_correspondence`. -/
theorem c5_textDelta_correspondence_witness :
    textDeltaChunks (readFullStream 0 [.reasoning "r", .textDelta "Hi",
        .unrecognized "foo", .textDelta "!"]).chunks
      = textFragments [.reasoning "r", .textDelta "Hi",
          .unrecognized "foo", .textDelta "!"] :=
  c5_textDelta_correspondence 0
    [.reasoning "r", .textDelta "Hi", .unrecognized "foo", .textDelta "!"]
    ⟨"Hi!", ""⟩ rfl

/-- Claim C6: a `text-delta` record arriving while the reasoning buffer is
non-empty emits exactly its `TEXT_DELTA` chunk immediately followed by one
`THINKING_COMPLETE` chunk carrying the buffered reasoning content, and
clears the buffer. -/
theorem c6_flush_follows_textDelta (now : Nat) (st : FinalState) (s : String)
    (h : st.reasoning_content ≠ "") :
    convertAndEmitChunk now (.textDelta s) st
      = ([Chunk.textDelta s, Chunk.thinkingComplete st.reasoning_content],
         .ok ⟨st.text ++ s, ""⟩) := by
  simp [convertAndEmitChunk, h, jsOr_empty]

/-- Witness for `c6_flush_follows_textDelta`: Scenario B's second record. -/
theorem c6_flush_follows_textDelta_witness :
    convertAndEmitChunk 0 (.textDelta "Answer") ⟨"", "because"⟩
      = ([Chunk.textDelta "Answer", Chunk.thinkingComplete "because"],
         .ok ⟨"Answer", ""⟩) := by
  simpa using c6_flush_follows_textDelta 0 ⟨"", "because"⟩ "Answer" (by decide)

/-- The property asserted by claim C7: a conversion step that emits a
`THINKING_COMPLETE` chunk always clears the reasoning buffer, and a step
that clears a non-empty reasoning buffer always emits one. -/
def c7Claim : Prop :=
  ∀ (now : Nat) (c : TextStreamPart) (st st' : FinalState),
    (convertAndEmitChunk now c st).2 = .ok st' →
    ((∃ t, Chunk.thinkingComplete t ∈ (convertAndEmitChunk now c st).1) →
        st'.reasoning_content = "") ∧
    (st.reasoning_content ≠ "" → st'.reasoning_content = "" →
        ∃ t, Chunk.thinkingComplete t ∈ (convertAndEmitChunk now c st).1)

/-- Claim C7 is false on the code: a `reasoning-signature` record emits a
`THINKING_COMPLETE` chunk (carrying the signature) while leaving the
reasoning buffer untouched. -/
theorem c7_counterexample : ¬ c7Claim := by
  intro h
  have hc := (h 0 (.reasoningSignature "sig") ⟨"", "r"⟩ ⟨"", "r"⟩ rfl).1
    ⟨"sig", by decide⟩
  exact absurd hc (by decide)

/-- Claim C7, amended: the reasoning buffer is cleared only by the
`text-delta` flush, which emits a `THINKING_COMPLETE` chunk carrying the
buffered content; but not every `THINKING_COMPLETE` emission clears the
buffer — `reasoning-signature` emits one and leaves the buffer unchanged. -/
theorem c7_amended (now : Nat) (c : TextStreamPart) (st st' : FinalState)
    (hok : (convertAndEmitChunk now c st).2 = .ok st')
    (hne : st.reasoning_content ≠ "") (hclr : st'.reasoning_content = "") :
    (∃ s, c = .textDelta s) ∧
    Chunk.thinkingComplete st.reasoning_content ∈ (convertAndEmitChunk now c st).1 := by
  cases c
  case textDelta s =>
    refine ⟨⟨s, rfl⟩, ?_⟩
    simp [convertAndEmitChunk, hne, jsOr_empty]
  case reasoning s =>
    exfalso
    simp only [convertAndEmitChunk, Except.ok.injEq] at hok
    rw [← hok] at hclr
    exact hne ((string_append_eq_empty_iff _ _).mp hclr).1
  case stepFinish usage =>
    cases usage with
    | none => simp [convertAndEmitChunk] at hok
    | some u =>
      simp only [convertAndEmitChunk, Except.ok.injEq] at hok
      rw [← hok] at hclr
      exact absurd hclr hne
  case finish usage =>
    cases usage with
    | none => simp [convertAndEmitChunk] at hok
    | some u =>
      simp only [convertAndEmitChunk, Except.ok.injEq] at hok
      rw [← hok] at hclr
      exact absurd hclr hne
  all_goals
    simp only [convertAndEmitChunk, Except.ok.injEq] at hok
  all_goals
    rw [← hok] at hclr
  all_goals
    exact absurd hclr hne

/-- Witness for `c7_amended`. -/
theorem c7_amended_witness :
    (convertAndEmitChunk 0 (.textDelta "x") ⟨"", "r"⟩).2 = .ok ⟨"x", ""⟩ ∧
    ((∃ s, TextStreamPart.textDelta "x" = .textDelta s) ∧
      Chunk.thinkingComplete "r" ∈ (convertAndEmitChunk 0 (.textDelta "x") ⟨"", "r"⟩).1) :=
  ⟨rfl, c7_amended 0 (.textDelta "x") ⟨"", "r"⟩ ⟨"x", ""⟩ rfl (by decide) rfl⟩

/-- Claim C8: an upstream `error` record is translated into exactly one
`ERROR` chunk carrying the upstream message (`'Unknown error'` when the
payload is empty); nothing is thrown, the loop keeps consuming from the same
accumulator, and the record itself contributes no `TEXT_COMPLETE` or
`LLM_RESPONSE_COMPLETE` chunk. -/
theorem c8_error_record (now : Nat) (st : FinalState) (message : String)
    (rest : List TextStreamPart) :
    convertAndEmitChunk now (.errorPart message) st
      = ([Chunk.error (jsOr message "Unknown error")], .ok st) ∧
    (readLoop now (.errorPart message :: rest) st).chunks
      = Chunk.error (jsOr message "Unknown error") :: (readLoop now rest st).chunks ∧
    (readLoop now (.errorPart message :: rest) st).result
      = (readLoop now rest st).result := by
  refine ⟨rfl, ?_, ?_⟩ <;>
    · rw [readLoop_cons_ok now (.errorPart message) rest st st rfl]
      try rfl

/-- Claim C9: on every run of the stream — ended normally or by an exception
thrown while converting a record — the reader's `releaseLock` is executed
exactly once, and it is the last reader operation, so it has happened before
any exception propagates out. -/
theorem c9_release_exactly_once (now : Nat) (events : List TextStreamPart) :
    (readFullStream now events).ops.count ReaderOp.releaseLock = 1 ∧
    (readFullStream now events).ops.getLast? = some ReaderOp.releaseLock := by
  constructor
  · have hmem : ReaderOp.releaseLock ∉ (readLoop now events ⟨"", ""⟩).ops := by
      intro hm
      exact absurd (readLoop_ops_read now events ⟨"", ""⟩ _ hm) (by decide)
    show ((readLoop now events ⟨"", ""⟩).ops
        ++ [ReaderOp.releaseLock]).count ReaderOp.releaseLock = 1
    rw [List.count_append, List.count_eq_zero.mpr hmem]
    rfl
  · show ((readLoop now events ⟨"", ""⟩).ops
        ++ [ReaderOp.releaseLock]).getLast? = some ReaderOp.releaseLock
    exact List.getLast?_concat _

/-- Claim C10: an unregistered provider id never surfaces the
"is not registered" error from `createClient`: the `openai-compatible`
configuration is silently substituted and resolution proceeds with it, and
`getClientInfo` reports `isSupported = false` with
`effectiveProvider = 'openai-compatible'`. -/
theorem c10_unknown_provider (providerId : String)
    (h : isSupported defaultProviders providerId = false) :
    createClient defaultProviders providerId
      = .resolved ⟨"openai-compatible", "OpenAI Compatible", "createOpenAICompatible"⟩ ∧
    getClientInfo defaultProviders providerId
      = ⟨providerId, "OpenAI Compatible", false, "openai-compatible"⟩ := by
  constructor
  · simp only [createClient, h]
    rfl
  · simp only [getClientInfo, h]
    rfl

/-- Witness for `c10_unknown_provider`. -/
theorem c10_unknown_provider_witness :
    isSupported defaultProviders "my-custom-provider" = false ∧
    (createClient defaultProviders "my-custom-provider"
        = .resolved ⟨"openai-compatible", "OpenAI Compatible", "createOpenAICompatible"⟩ ∧
      getClientInfo defaultProviders "my-custom-provider"
        = ⟨"my-custom-provider", "OpenAI Compatible", false, "openai-compatible"⟩) :=
  ⟨by decide, c10_unknown_provider "my-custom-provider" (by decide)⟩
